import Mathlib

/-!
Verification development for the voxel-world core of the `lowdragrts`
repository: chunk storage, procedural terrain generation, and per-face
mesh extraction.

The repository contains several superseded rewrites of the same files.
Two chunk implementations are embedded here:

* `Chunk` — the bounds-checked variant (unnamed part_008, `class Chunk`,
  voxels as a `VoxelType[][][]` cube of side 16, a dirty flag, and an
  owned mesh rebuilt by `updateMesh`).
* `ChunkTS` — the variant in `src/engine/voxel/Chunk.ts` (voxels as a
  flat `Uint8Array(size*size*size)` indexed by `x + y*16 + z*256`,
  with no bounds checks on `getVoxel`/`setVoxel`).

Likewise two meshers: `ChunkMesher` (the face-culling variant of
`src/engine/voxel/ChunkMesher.ts`, lines 221-373) and the built-in
mesher of `Chunk.ts` (`ChunkTS.updateMeshData`), which emits all six
faces of every non-Air voxel unconditionally.
-/

namespace Lowdrag

/-- VoxelType enum of `src/engine/voxel/VoxelTypes.ts` (numeric variant,
lines 160-168): AIR = 0, DIRT = 1, GRASS = 2, STONE = 3, SKIRULUM_ORE = 4,
FREDALITE_CRYSTAL = 5, BEDROCK = 6. -/
inductive VoxelType where
  | AIR
  | DIRT
  | GRASS
  | STONE
  | SKIRULUM_ORE
  | FREDALITE_CRYSTAL
  | BEDROCK
deriving DecidableEq, Repr

/-- The `transparent` trait of `VOXEL_MATERIALS` (VoxelTypes.ts lines
182-220): true exactly for AIR and FREDALITE_CRYSTAL. -/
def VOXEL_MATERIALS.transparent : VoxelType → Bool
  | .AIR => true
  | .DIRT => false
  | .GRASS => false
  | .STONE => false
  | .SKIRULUM_ORE => false
  | .FREDALITE_CRYSTAL => true
  | .BEDROCK => false

/-- The `color` trait of `VOXEL_MATERIALS` (VoxelTypes.ts lines 182-220),
as the hex value stored in the table. -/
def VOXEL_MATERIALS.color : VoxelType → Nat
  | .AIR => 0x000000
  | .DIRT => 0x8B4513
  | .GRASS => 0x567d46
  | .STONE => 0x808080
  | .SKIRULUM_ORE => 0x4B0082
  | .FREDALITE_CRYSTAL => 0x00FF00
  | .BEDROCK => 0x0A0A0A

/-- CHUNK_SIZE = 16 (part_008 line 137 and Chunk.ts line 5). -/
def CHUNK_SIZE : Int := 16

/-- Mesh data produced by `ChunkMesher.generateMesh` (ChunkMesher.ts
lines 252-293): flat vertex positions, per-vertex normals, per-vertex
color channels, and a triangle index buffer. Face-template vertex
coordinates are voxel coordinates plus 0 or 1, hence integers. Color
channels are modelled as the byte channels of the material's hex color
(THREE.Color additionally divides each channel by 255, a fixed rescale
that carries no information). -/
structure MeshData where
  vertices : List Int
  normals : List Int
  colors : List Nat
  indices : List Nat
deriving DecidableEq, Repr

/-- The chunk of unnamed part_008 (lines 139-216): a 16×16×16 cube of
voxels (`VoxelType[][][]`, initialized to AIR), a chunk-coordinate
position, a dirty flag initialized to `true`, and an owned mesh
(`null` until first built). The nested-array cube is modelled as a
total function on `Int` coordinates; the bounds guards in
`setVoxel`/`getVoxel` ensure the source only ever dereferences indices
in `[0,16)`, so the model and the nested arrays agree everywhere the
source reads or writes. -/
structure Chunk where
  position : Int × Int × Int
  voxels : Int → Int → Int → VoxelType
  dirty : Bool
  mesh : Option MeshData

/-- Chunk constructor (part_008 lines 145-152): position set from the
arguments, every voxel AIR, dirty = true, no mesh. -/
def Chunk.new (x y z : Int) : Chunk :=
  { position := (x, y, z)
    voxels := fun _ _ _ => VoxelType.AIR
    dirty := true
    mesh := none }

/-- Chunk.setVoxel (part_008 lines 154-160): returns unchanged (before
touching the dirty flag) when any coordinate is outside [0,16);
otherwise stores the value and sets dirty = true. The source method's
return type is void. -/
def Chunk.setVoxel (c : Chunk) (x y z : Int) (t : VoxelType) : Chunk :=
  if x < 0 ∨ 16 ≤ x ∨ y < 0 ∨ 16 ≤ y ∨ z < 0 ∨ 16 ≤ z then c
  else
    { c with
      voxels := fun a b d => if a = x ∧ b = y ∧ d = z then t else c.voxels a b d
      dirty := true }

/-- The value of the call expression `chunk.setVoxel(x,y,z,type)` in
part_008: the method's declared return type is `void` (line 154), so
the call evaluates to `undefined` — there is no Boolean change report.
Modelled as `none : Option Bool`. -/
def Chunk.setVoxelReturnValue (_c : Chunk) (_x _y _z : Int) (_t : VoxelType) : Option Bool :=
  none

/-- Chunk.getVoxel (part_008 lines 162-167): AIR for any coordinate
outside [0,16); otherwise the stored voxel. -/
def Chunk.getVoxel (c : Chunk) (x y z : Int) : VoxelType :=
  if x < 0 ∨ 16 ≤ x ∨ y < 0 ∨ 16 ≤ y ∨ z < 0 ∨ 16 ≤ z then VoxelType.AIR
  else c.voxels x y z

/-- Chunk.isDirty (part_008 lines 190-192). -/
def Chunk.isDirty (c : Chunk) : Bool :=
  c.dirty

/-- Out-of-range getVoxel is AIR (the guard branch of part_008 lines
163-165). -/
theorem Chunk.getVoxel_out_of_range (c : Chunk) (x y z : Int)
    (h : x < 0 ∨ 16 ≤ x ∨ y < 0 ∨ 16 ≤ y ∨ z < 0 ∨ 16 ≤ z) :
    c.getVoxel x y z = VoxelType.AIR := by
  unfold Chunk.getVoxel
  exact if_pos h

/-- Out-of-range setVoxel returns the chunk unchanged (the guard branch
of part_008 lines 155-157 returns before anything is written and before
the dirty flag is touched). -/
theorem Chunk.setVoxel_out_of_range (c : Chunk) (x y z : Int) (t : VoxelType)
    (h : x < 0 ∨ 16 ≤ x ∨ y < 0 ∨ 16 ≤ y ∨ z < 0 ∨ 16 ≤ z) :
    c.setVoxel x y z t = c := by
  unfold Chunk.setVoxel
  exact if_pos h

/-- The chunk of `src/engine/voxel/Chunk.ts` (lines 7-60): voxels in a
flat `Uint8Array(16*16*16)` addressed by `x + y*16 + z*16*16`, zero
(= AIR) initialized. Neither accessor checks bounds. The typed array is
modelled by a total function on the flat index together with the
TypedArray semantics: a read at an index outside [0,4096) yields
`undefined` (here `none`), and a write outside [0,4096) is silently
ignored (while the subsequent `this.isDirty = true` still executes). -/
structure ChunkTS where
  voxels : Int → VoxelType
  dirty : Bool

/-- Fresh ChunkTS state with every voxel AIR (Uint8Array zero
initialization), before `generateTerrain` runs. -/
def ChunkTS.empty : ChunkTS :=
  { voxels := fun _ => VoxelType.AIR, dirty := true }

/-- The flat index `x + y * CHUNK_SIZE + z * CHUNK_SIZE * CHUNK_SIZE`
of Chunk.ts lines 52 and 58. -/
def ChunkTS.flatIndex (x y z : Int) : Int :=
  x + y * 16 + z * 16 * 16

/-- ChunkTS.setVoxel (Chunk.ts lines 51-55): no bounds check; the store
`this.voxels[index] = type` is ignored by the Uint8Array when the index
is outside [0,4096), but `this.isDirty = true` always executes. -/
def ChunkTS.setVoxel (c : ChunkTS) (x y z : Int) (t : VoxelType) : ChunkTS :=
  let i := ChunkTS.flatIndex x y z
  { voxels :=
      if 0 ≤ i ∧ i < 4096 then fun a => if a = i then t else c.voxels a
      else c.voxels
    dirty := true }

/-- ChunkTS.getVoxel (Chunk.ts lines 57-60): no bounds check; reading
`this.voxels[index]` yields the stored byte for an index in [0,4096)
and `undefined` (modelled `none`) otherwise. -/
def ChunkTS.getVoxel (c : ChunkTS) (x y z : Int) : Option VoxelType :=
  let i := ChunkTS.flatIndex x y z
  if 0 ≤ i ∧ i < 4096 then some (c.voxels i) else none

/-- The six face directions of `ChunkMesher.FACES` (ChunkMesher.ts
lines 222-241), in object-insertion order: top, bottom, left, right,
front, back. -/
inductive Face where
  | top
  | bottom
  | left
  | right
  | front
  | back
deriving DecidableEq, Repr, Fintype

/-- FACES iteration order: `Object.entries(this.FACES)` enumerates the
keys in insertion order (ChunkMesher.ts line 310). -/
def facesOrder : List Face :=
  [Face.top, Face.bottom, Face.left, Face.right, Face.front, Face.back]

/-- The four corner offsets of each face template (`FACES`,
ChunkMesher.ts lines 222-241). -/
def FACES (f : Face) : List (Int × Int × Int) :=
  match f with
  | .top => [(0, 1, 0), (1, 1, 0), (1, 1, 1), (0, 1, 1)]
  | .bottom => [(0, 0, 1), (1, 0, 1), (1, 0, 0), (0, 0, 0)]
  | .left => [(0, 0, 0), (0, 1, 0), (0, 1, 1), (0, 0, 1)]
  | .right => [(1, 0, 1), (1, 1, 1), (1, 1, 0), (1, 0, 0)]
  | .front => [(0, 0, 1), (0, 1, 1), (1, 1, 1), (1, 0, 1)]
  | .back => [(1, 0, 0), (1, 1, 0), (0, 1, 0), (0, 0, 0)]

/-- The outward normal of each face (`NORMALS`, ChunkMesher.ts lines
243-250). -/
def NORMALS (f : Face) : Int × Int × Int :=
  match f with
  | .top => (0, 1, 0)
  | .bottom => (0, -1, 0)
  | .left => (-1, 0, 0)
  | .right => (1, 0, 0)
  | .front => (0, 0, 1)
  | .back => (0, 0, -1)

/-- The neighbor coordinate examined by `shouldRenderFace`
(ChunkMesher.ts lines 350-359: the switch on the face name). -/
def neighborCoord (x y z : Int) (f : Face) : Int × Int × Int :=
  match f with
  | .top => (x, y + 1, z)
  | .bottom => (x, y - 1, z)
  | .left => (x - 1, y, z)
  | .right => (x + 1, y, z)
  | .front => (x, y, z + 1)
  | .back => (x, y, z - 1)

/-- ChunkMesher.shouldRenderFace (ChunkMesher.ts lines 343-372; the
same method appears verbatim at lines 179-208 of the superseded first
mesher class in the file). If the neighbor coordinate is outside chunk
bounds the face is rendered unconditionally — the function takes only
the one chunk and never consults any adjacent chunk. Otherwise the face
is rendered iff the neighbor voxel is AIR or its material is
transparent. -/
def ChunkMesher.shouldRenderFace (c : Chunk) (x y z : Int) (f : Face) : Bool :=
  let n := neighborCoord x y z f
  if n.1 < 0 ∨ 16 ≤ n.1 ∨ n.2.1 < 0 ∨ 16 ≤ n.2.1 ∨ n.2.2 < 0 ∨ 16 ≤ n.2.2 then
    true
  else
    let neighborType := c.getVoxel n.1 n.2.1 n.2.2
    neighborType == VoxelType.AIR || VOXEL_MATERIALS.transparent neighborType

/-- The byte channels (r, g, b) of a material color hex. -/
def colorChannels (hex : Nat) : Nat × Nat × Nat :=
  (hex / 65536 % 256, hex / 256 % 256, hex % 256)

/-- ChunkMesher.addVoxelToMesh (ChunkMesher.ts lines 295-341): for each
face in FACES order, when `shouldRenderFace` holds, append the four
template vertices offset by (x,y,z) with the material color per vertex,
four copies of the face normal, and the two triangles
(vo, vo+1, vo+2) and (vo, vo+2, vo+3) where vo is the vertex count
before the face was appended (line 312: `vertices.length / 3`). -/
def ChunkMesher.addVoxelToMesh (c : Chunk) (x y z : Int) (voxelType : VoxelType)
    (st : MeshData) : MeshData :=
  let rgb := colorChannels (VOXEL_MATERIALS.color voxelType)
  facesOrder.foldl
    (fun st f =>
      if ChunkMesher.shouldRenderFace c x y z f then
        let vo := st.vertices.length / 3
        let nrm := NORMALS f
        { vertices :=
            st.vertices ++
              (FACES f).foldl (fun l v => l ++ [x + v.1, y + v.2.1, z + v.2.2]) []
          colors :=
            st.colors ++ [rgb.1, rgb.2.1, rgb.2.2, rgb.1, rgb.2.1, rgb.2.2,
              rgb.1, rgb.2.1, rgb.2.2, rgb.1, rgb.2.1, rgb.2.2]
          normals :=
            st.normals ++ [nrm.1, nrm.2.1, nrm.2.2, nrm.1, nrm.2.1, nrm.2.2,
              nrm.1, nrm.2.1, nrm.2.2, nrm.1, nrm.2.1, nrm.2.2]
          indices :=
            st.indices ++ [vo, vo + 1, vo + 2, vo, vo + 2, vo + 3] }
      else st)
    st

/-- ChunkMesher.generateMesh (ChunkMesher.ts lines 252-293): iterate y,
then z, then x over the chunk, skip AIR voxels, and let
`addVoxelToMesh` contribute the visible faces of each remaining
voxel. -/
def ChunkMesher.generateMesh (c : Chunk) : MeshData :=
  (List.range 16).foldl
    (fun st y =>
      (List.range 16).foldl
        (fun st z =>
          (List.range 16).foldl
            (fun st x =>
              let voxelType := c.getVoxel (x : Int) (y : Int) (z : Int)
              if voxelType = VoxelType.AIR then st
              else ChunkMesher.addVoxelToMesh c (x : Int) (y : Int) (z : Int) voxelType st)
            st)
        st)
    { vertices := [], normals := [], colors := [], indices := [] }

/-- Chunk.updateMesh (part_008 lines 169-184): returns immediately when
the chunk is not dirty; otherwise replaces the mesh with the mesher's
output and clears the dirty flag. -/
def Chunk.updateMesh (c : Chunk) : Chunk :=
  if ¬ c.dirty then c
  else { c with mesh := some (ChunkMesher.generateMesh c), dirty := false }

/-- Mesh data produced by the built-in mesher of Chunk.ts
(`updateMesh`, lines 78-183): vertex positions (half-integer corners,
hence rationals), texture coordinates, and triangle indices. Normals
are computed afterwards by `computeVertexNormals` and carry no
independent information. -/
structure MeshTS where
  vertices : List ℚ
  uvs : List ℚ
  indices : List Nat
deriving DecidableEq, Repr

/-- The 24 cube corner positions pushed for one voxel by Chunk.ts
lines 98-150, in source order: front, back, top, bottom, right, left,
with `size = 0.5`. -/
def ChunkTS.cubeVertices (x y z : ℚ) : List ℚ :=
  let s : ℚ := 1 / 2
  [x - s, y - s, z + s, x + s, y - s, z + s, x + s, y + s, z + s, x - s, y + s, z + s,
   x - s, y - s, z - s, x + s, y - s, z - s, x + s, y + s, z - s, x - s, y + s, z - s,
   x - s, y + s, z - s, x + s, y + s, z - s, x + s, y + s, z + s, x - s, y + s, z + s,
   x - s, y - s, z - s, x + s, y - s, z - s, x + s, y - s, z + s, x - s, y - s, z + s,
   x + s, y - s, z - s, x + s, y + s, z - s, x + s, y + s, z + s, x + s, y - s, z + s,
   x - s, y - s, z - s, x - s, y + s, z - s, x - s, y + s, z + s, x - s, y - s, z + s]

/-- The texture coordinates pushed for one voxel: `[0,0,1,0,1,1,0,1]`
per face, six faces (Chunk.ts lines 105, 114, 123, 132, 141, 150). -/
def ChunkTS.cubeUVs : List ℚ :=
  [0, 0, 1, 0, 1, 1, 0, 1, 0, 0, 1, 0, 1, 1, 0, 1, 0, 0, 1, 0, 1, 1, 0, 1,
   0, 0, 1, 0, 1, 1, 0, 1, 0, 0, 1, 0, 1, 1, 0, 1, 0, 0, 1, 0, 1, 1, 0, 1]

/-- The 36 triangle indices pushed for one voxel (Chunk.ts lines
152-159): for each face i in 0..5, with faceBase = baseIndex + 4·i,
push (faceBase, faceBase+1, faceBase+2, faceBase, faceBase+2,
faceBase+3). -/
def ChunkTS.cubeIndices (baseIndex : Nat) : List Nat :=
  (List.range 6).foldl
    (fun l i =>
      let faceBase := baseIndex + i * 4
      l ++ [faceBase, faceBase + 1, faceBase + 2, faceBase, faceBase + 2, faceBase + 3])
    []

/-- The geometry built by Chunk.ts `updateMesh` (lines 78-169): iterate
x, then y, then z; for every non-AIR voxel push all 24 cube corners,
the texture coordinates, and the 36 indices — no visibility or
neighbor test of any kind. For the in-range loop coordinates
`this.getVoxel(x,y,z)` is the stored array entry, read here through
the flat index. -/
def ChunkTS.updateMeshData (c : ChunkTS) : MeshTS :=
  (List.range 16).foldl
    (fun st x =>
      (List.range 16).foldl
        (fun st y =>
          (List.range 16).foldl
            (fun st z =>
              let voxelType := c.voxels (ChunkTS.flatIndex (x : Int) (y : Int) (z : Int))
              if voxelType = VoxelType.AIR then st
              else
                let baseIndex := st.vertices.length / 3
                { vertices := st.vertices ++ ChunkTS.cubeVertices (x : ℚ) (y : ℚ) (z : ℚ)
                  uvs := st.uvs ++ ChunkTS.cubeUVs
                  indices := st.indices ++ ChunkTS.cubeIndices baseIndex })
            st)
        st)
    { vertices := [], uvs := [], indices := [] }

/-- Rational addition on numerator/denominator. The library operations
`Rat.add`, `Rat.sub`, `Rat.mul`, `Rat.inv` are deliberately opaque to
unfolding, which would keep concrete terrain computations from
evaluating inside proofs; these wrappers are the same textbook
operations written directly (the bridge lemmas `qAdd_eq` … `qDiv_eq`
below prove them equal to the standard ones). -/
def qAdd (a b : ℚ) : ℚ :=
  Rat.divInt (a.num * (b.den : Int) + b.num * (a.den : Int)) ((a.den : Int) * (b.den : Int))

/-- Rational subtraction on numerator/denominator. -/
def qSub (a b : ℚ) : ℚ :=
  Rat.divInt (a.num * (b.den : Int) - b.num * (a.den : Int)) ((a.den : Int) * (b.den : Int))

/-- Rational multiplication on numerator/denominator. -/
def qMul (a b : ℚ) : ℚ :=
  Rat.divInt (a.num * b.num) ((a.den : Int) * (b.den : Int))

/-- Rational division on numerator/denominator (division by zero gives
zero, as for the standard operation). -/
def qDiv (a b : ℚ) : ℚ :=
  Rat.divInt (a.num * (b.den : Int)) ((a.den : Int) * b.num)

theorem qAdd_eq (a b : ℚ) : qAdd a b = a + b := by
  rw [qAdd]
  conv_rhs => rw [← Rat.num_div_den a, ← Rat.num_div_den b]
  rw [div_add_div _ _ (by exact_mod_cast a.den_nz) (by exact_mod_cast b.den_nz)]
  rw [Rat.divInt_eq_div]
  push_cast
  ring_nf

theorem qSub_eq (a b : ℚ) : qSub a b = a - b := by
  rw [qSub]
  conv_rhs => rw [← Rat.num_div_den a, ← Rat.num_div_den b]
  rw [div_sub_div _ _ (by exact_mod_cast a.den_nz) (by exact_mod_cast b.den_nz)]
  rw [Rat.divInt_eq_div]
  push_cast
  ring_nf

theorem qMul_eq (a b : ℚ) : qMul a b = a * b := by
  rw [qMul]
  conv_rhs => rw [← Rat.num_div_den a, ← Rat.num_div_den b]
  rw [div_mul_div_comm, Rat.divInt_eq_div]
  push_cast
  ring_nf

theorem qDiv_eq (a b : ℚ) : qDiv a b = a / b := by
  rcases eq_or_ne b 0 with hb | hb
  · subst hb
    simp [qDiv, Rat.divInt_eq_div]
  · rw [qDiv, Rat.divInt_eq_div]
    have h1 : ((a.den : ℚ)) ≠ 0 := Nat.cast_ne_zero.mpr a.den_nz
    have h2 : ((b.den : ℚ)) ≠ 0 := Nat.cast_ne_zero.mpr b.den_nz
    have h3 : ((b.num : ℚ)) ≠ 0 := Int.cast_ne_zero.mpr (Rat.num_ne_zero.mpr hb)
    conv_rhs => rw [← Rat.num_div_den a, ← Rat.num_div_den b]
    field_simp

/-- Noise provided by the external `simplex-noise-esm` library. The
library is not part of this repository; its `SimplexNoise` constructor
takes no seed in the calls made here (part_007 line 26) and initializes
itself from ambient entropy, so a WorldManager's noise instance is an
arbitrary pair of coherent-noise functions fixed at construction. -/
structure NoiseFns where
  noise2D : ℚ → ℚ → ℚ
  noise3D : ℚ → ℚ → ℚ → ℚ

/-- Math.floor on rationals: the greatest integer below, computed as
floor division of numerator by denominator. -/
def jsFloor (q : ℚ) : Int :=
  q.num.fdiv (q.den : Int)

/-- World-generation constants of part_007 lines 12-21:
TERRAIN_SCALE = 150, TERRAIN_HEIGHT = 20, BASE_HEIGHT = 10,
ORE_DENSITY = 0.1, CRYSTAL_DENSITY = 0.05, BIOME_SCALE = 300,
MOISTURE_SCALE = 250. -/
def TERRAIN_SCALE : ℚ := 150
def TERRAIN_HEIGHT : ℚ := 20
def BASE_HEIGHT : ℚ := 10
def ORE_DENSITY : ℚ := Rat.divInt 1 10
def CRYSTAL_DENSITY : ℚ := Rat.divInt 1 20
def BIOME_SCALE : ℚ := 300
def MOISTURE_SCALE : ℚ := 250

/-- The biome channel of part_007 lines 69-72:
`(noise2D((wx+x)/BIOME_SCALE, (wz+z)/BIOME_SCALE) + 1) * 0.5` at world
column (wx, wz). -/
def biomeNoiseAt (n : NoiseFns) (wx wz : Int) : ℚ :=
  qMul (qAdd (n.noise2D (qDiv (wx : ℚ) BIOME_SCALE) (qDiv (wz : ℚ) BIOME_SCALE)) 1) (Rat.divInt 1 2)

/-- The moisture channel of part_007 lines 75-78. -/
def moistureNoiseAt (n : NoiseFns) (wx wz : Int) : ℚ :=
  qMul (qAdd (n.noise2D (qDiv (wx : ℚ) MOISTURE_SCALE) (qDiv (wz : ℚ) MOISTURE_SCALE)) 1) (Rat.divInt 1 2)

/-- The terrain height of part_007 lines 81-84:
`Math.floor(BASE_HEIGHT + ((noise2D(nx,nz)+1)*0.5) * TERRAIN_HEIGHT)`
with nx = wx/TERRAIN_SCALE, nz = wz/TERRAIN_SCALE. -/
def heightAt (n : NoiseFns) (wx wz : Int) : Int :=
  jsFloor (qAdd BASE_HEIGHT (qMul (qMul (qAdd (n.noise2D (qDiv (wx : ℚ) TERRAIN_SCALE) (qDiv (wz : ℚ) TERRAIN_SCALE)) 1) (Rat.divInt 1 2)) TERRAIN_HEIGHT))

/-- The high-frequency crystal channel of part_007 line 120:
`noise2D(nx*4, nz*4)`. -/
def crystalNoiseAt (n : NoiseFns) (wx wz : Int) : ℚ :=
  n.noise2D (qMul (qDiv (wx : ℚ) TERRAIN_SCALE) 4) (qMul (qDiv (wz : ℚ) TERRAIN_SCALE) 4)

/-- The body of the innermost (y) loop of
`WorldManager.generateChunkTerrain` (part_007 lines 86-130). `posY` is
`chunk.position.y` (immutable through the loop: `setVoxel` never
touches the position), `nx`/`nz`/`biome`/`moisture`/`height` are the
per-column values computed at lines 65-84, and `worldY = posY*16 + y`
(line 87). -/
def terrainYStep (n : NoiseFns) (posY x z : Int) (nx nz biome moisture : ℚ)
    (height : Int) (c : Chunk) (y : Int) : Chunk :=
  let worldY := posY * 16 + y
  let c1 :=
    if worldY < height - 4 then
      let cs := c.setVoxel x y z VoxelType.STONE
      let oreNoise := n.noise3D (qMul nx 2) (qDiv (worldY : ℚ) 20) (qMul nz 2)
      if qSub 1 ORE_DENSITY < oreNoise then
        if qSub 1 (qMul ORE_DENSITY (Rat.divInt 1 2)) < oreNoise then
          cs.setVoxel x y z VoxelType.SKIRULUM_ORE
        else cs
      else cs
    else if worldY < height then c.setVoxel x y z VoxelType.DIRT
    else if worldY = height then
      let cs :=
        if biome < Rat.divInt 2 5 then c.setVoxel x y z VoxelType.GRASS
        else if biome < Rat.divInt 7 10 then c.setVoxel x y z VoxelType.STONE
        else c.setVoxel x y z VoxelType.DIRT
      if Rat.divInt 7 10 < moisture ∧ qSub 1 CRYSTAL_DENSITY < n.noise2D (qMul nx 4) (qMul nz 4) then
        cs.setVoxel x (y + 1) z VoxelType.FREDALITE_CRYSTAL
      else cs
    else c.setVoxel x y z VoxelType.AIR
  if worldY = 0 then c1.setVoxel x y z VoxelType.BEDROCK else c1

/-- Comparison definition for claim C10 only: `terrainYStep` with the
Fredalite-crystal write guarded by `y + 1 < 16`, i.e. the crystal write
dropped exactly when it would land in the row above the chunk's top
local layer. Identical to `terrainYStep` everywhere else. -/
def terrainYStepClipped (n : NoiseFns) (posY x z : Int) (nx nz biome moisture : ℚ)
    (height : Int) (c : Chunk) (y : Int) : Chunk :=
  let worldY := posY * 16 + y
  let c1 :=
    if worldY < height - 4 then
      let cs := c.setVoxel x y z VoxelType.STONE
      let oreNoise := n.noise3D (qMul nx 2) (qDiv (worldY : ℚ) 20) (qMul nz 2)
      if qSub 1 ORE_DENSITY < oreNoise then
        if qSub 1 (qMul ORE_DENSITY (Rat.divInt 1 2)) < oreNoise then
          cs.setVoxel x y z VoxelType.SKIRULUM_ORE
        else cs
      else cs
    else if worldY < height then c.setVoxel x y z VoxelType.DIRT
    else if worldY = height then
      let cs :=
        if biome < Rat.divInt 2 5 then c.setVoxel x y z VoxelType.GRASS
        else if biome < Rat.divInt 7 10 then c.setVoxel x y z VoxelType.STONE
        else c.setVoxel x y z VoxelType.DIRT
      if Rat.divInt 7 10 < moisture ∧ qSub 1 CRYSTAL_DENSITY < n.noise2D (qMul nx 4) (qMul nz 4) then
        if y + 1 < 16 then cs.setVoxel x (y + 1) z VoxelType.FREDALITE_CRYSTAL else cs
      else cs
    else c.setVoxel x y z VoxelType.AIR
  if worldY = 0 then c1.setVoxel x y z VoxelType.BEDROCK else c1

/-- WorldManager.generateChunkTerrain (part_007 lines 57-133): for each
local column (x, z), compute the per-column noise channels and height,
then fill the 16 cells of the column bottom-up via `terrainYStep`. -/
def WorldManager.generateChunkTerrain (n : NoiseFns) (c : Chunk) : Chunk :=
  let worldX := c.position.1 * 16
  let posY := c.position.2.1
  let worldZ := c.position.2.2 * 16
  (List.range 16).foldl
    (fun c x =>
      (List.range 16).foldl
        (fun c z =>
          let nx := qDiv ((worldX + (x : Int) : Int) : ℚ) TERRAIN_SCALE
          let nz := qDiv ((worldZ + (z : Int) : Int) : ℚ) TERRAIN_SCALE
          let biome := biomeNoiseAt n (worldX + (x : Int)) (worldZ + (z : Int))
          let moisture := moistureNoiseAt n (worldX + (x : Int)) (worldZ + (z : Int))
          let height := heightAt n (worldX + (x : Int)) (worldZ + (z : Int))
          (List.range 16).foldl
            (fun c y => terrainYStep n posY (x : Int) (z : Int) nx nz biome moisture height c (y : Int))
            c)
        c)
    c

/-- Comparison definition for claim C10 only: `generateChunkTerrain`
with `terrainYStep` replaced by `terrainYStepClipped`. -/
def WorldManager.generateChunkTerrainClipped (n : NoiseFns) (c : Chunk) : Chunk :=
  let worldX := c.position.1 * 16
  let posY := c.position.2.1
  let worldZ := c.position.2.2 * 16
  (List.range 16).foldl
    (fun c x =>
      (List.range 16).foldl
        (fun c z =>
          let nx := qDiv ((worldX + (x : Int) : Int) : ℚ) TERRAIN_SCALE
          let nz := qDiv ((worldZ + (z : Int) : Int) : ℚ) TERRAIN_SCALE
          let biome := biomeNoiseAt n (worldX + (x : Int)) (worldZ + (z : Int))
          let moisture := moistureNoiseAt n (worldX + (x : Int)) (worldZ + (z : Int))
          let height := heightAt n (worldX + (x : Int)) (worldZ + (z : Int))
          (List.range 16).foldl
            (fun c y => terrainYStepClipped n posY (x : Int) (z : Int) nx nz biome moisture height c (y : Int))
            c)
        c)
    c

/-- The WorldManager of part_007 (lines 6-236): the live chunks keyed
by chunk coordinate. The source keys its `Map` by the string
`"x,y,z"`; the key is in bijection with the coordinate triple, so the
map is modelled as an association list keyed by the triple. -/
structure WorldManager where
  chunks : List ((Int × Int × Int) × Chunk)

/-- WorldManager.getChunk (part_007 lines 33-35): `chunks.get(key)`. -/
def WorldManager.getChunk (wm : WorldManager) (x y z : Int) : Option Chunk :=
  (wm.chunks.find? (fun kv => kv.1 = (x, y, z))).map (fun kv => kv.2)

/-- WorldManager.getVoxel (part_007 lines 151-165): chunk coordinate by
`Math.floor(w / CHUNK_SIZE)` (floor division), local coordinate
`w − chunkCoord·CHUNK_SIZE`; delegate to the addressed chunk, or
return AIR when it does not exist. -/
def WorldManager.getVoxel (wm : WorldManager) (worldX worldY worldZ : Int) : VoxelType :=
  let chunkX := Int.fdiv worldX 16
  let chunkY := Int.fdiv worldY 16
  let chunkZ := Int.fdiv worldZ 16
  match wm.getChunk chunkX chunkY chunkZ with
  | some chunk =>
      chunk.getVoxel (worldX - chunkX * 16) (worldY - chunkY * 16) (worldZ - chunkZ * 16)
  | none => VoxelType.AIR

/-- WorldManager.setVoxel (part_007 lines 135-149): same decomposition;
when the addressed chunk exists, write the local coordinate into it and
rebuild its mesh (`chunk.setVoxel` then `chunk.updateMesh`, mutating
the chunk held in the map); when it does not exist, do nothing. -/
def WorldManager.setVoxel (wm : WorldManager) (worldX worldY worldZ : Int)
    (t : VoxelType) : WorldManager :=
  let chunkX := Int.fdiv worldX 16
  let chunkY := Int.fdiv worldY 16
  let chunkZ := Int.fdiv worldZ 16
  match wm.getChunk chunkX chunkY chunkZ with
  | some chunk =>
      let chunk' :=
        (chunk.setVoxel (worldX - chunkX * 16) (worldY - chunkY * 16) (worldZ - chunkZ * 16) t).updateMesh
      { chunks :=
          wm.chunks.map (fun kv => if kv.1 = (chunkX, chunkY, chunkZ) then (kv.1, chunk') else kv) }
  | none => wm

/-- WorldManager.update (part_007 lines 177-184): every dirty chunk
gets its mesh rebuilt. -/
def WorldManager.update (wm : WorldManager) : WorldManager :=
  { chunks := wm.chunks.map (fun kv => if kv.2.isDirty then (kv.1, kv.2.updateMesh) else kv) }

/-- The voxel examined by one iteration of the downward scan in
`WorldManager.getHeightAt` (part_007 lines 219-232): the chunk at
(chunkX, floor(y/16), chunkZ) read at local (lx, y % 16, lz). An
absent chunk is skipped by the loop, which is the same as reading AIR
(a present chunk whose voxel is AIR is also skipped). `y` is the
scanning height, a natural number in [0, 64). -/
def WorldManager.scanVoxel (wm : WorldManager) (chunkX chunkZ lx lz : Int) (y : Nat) : VoxelType :=
  match wm.getChunk chunkX (Int.fdiv (y : Int) 16) chunkZ with
  | some chunk => chunk.getVoxel lx (Int.tmod (y : Int) 16) lz
  | none => VoxelType.AIR

/-- The scanning loop of part_007 lines 219-232, recursing downward:
`heightLoop … (n+1)` examines scanning height n and returns `n + 1`
when the voxel there is not AIR, otherwise continues below; at the
bottom it returns 0 (line 234). -/
def WorldManager.heightLoop (wm : WorldManager) (chunkX chunkZ lx lz : Int) : Nat → Int
  | 0 => 0
  | n + 1 =>
      if wm.scanVoxel chunkX chunkZ lx lz n ≠ VoxelType.AIR then (n : Int) + 1
      else WorldManager.heightLoop wm chunkX chunkZ lx lz n

/-- The local column coordinate used by `getHeightAt` (part_007 lines
210-211 and 223-225): the JS remainder `Math.floor(w) % 16` (sign of
the dividend, `Int.tmod`), shifted by +16 when negative. -/
def localColumn (w : Int) : Int :=
  let l := Int.tmod w 16
  if 0 ≤ l then l else 16 + l

/-- WorldManager.getHeightAt (part_007 lines 197-235): chunk column by
floor division, local column by `localColumn`; then scan from
`4*CHUNK_SIZE - 1 = 63` down to 0 and return y+1 at the first non-AIR
voxel, or 0 when the whole scanned column is AIR. -/
def WorldManager.getHeightAt (wm : WorldManager) (x z : Int) : Int :=
  let chunkX := Int.fdiv x 16
  let chunkZ := Int.fdiv z 16
  WorldManager.heightLoop wm chunkX chunkZ (localColumn x) (localColumn z) 64

/-- The permutation-table construction of
`TerrainGenerator.createNoiseTexture`
(src/engine/terrain/TerrainGenerator.ts lines 61-72): p[i] = i for
i < 256, then a downward Fisher-Yates pass whose swap index is
`Math.floor(Math.random() * (i + 1))`, then the table is duplicated to
512 entries. The construction reads `Math.random()` — not the stored
`this.seed`, which `createNoiseTexture` never consults — so it is
parameterized here by `rand`, the stream of `Math.random()` draws
(draw k is the call made at loop index i = 255 − k). -/
def listSet : List Nat → Nat → Nat → List Nat
  | [], _, _ => []
  | _ :: t, 0, v => v :: t
  | h :: t, n + 1, v => h :: listSet t n v

/-- The destructuring swap `[p[i], p[j]] = [p[j], p[i]]`
(TerrainGenerator.ts line 68). -/
def swapEntries (p : List Nat) (i j : Nat) : List Nat :=
  let a := p.getD i 0
  let b := p.getD j 0
  listSet (listSet p i b) j a

/-- The shuffle loop `for (let i = 255; i > 0; i--)`
(TerrainGenerator.ts lines 66-69), recursing on i. -/
def shuffleLoop (rand : Nat → ℚ) : Nat → List Nat → List Nat
  | 0, p => p
  | m + 1, p =>
      let i := m + 1
      let j := (jsFloor (qMul (rand (255 - i)) ((i + 1 : Nat) : ℚ))).toNat
      shuffleLoop rand m (swapEntries p i j)

/-- The full permutation table of `createNoiseTexture` (lines 62-72):
identity 0..255, shuffled by the `Math.random()` stream, duplicated to
512 entries. The generator's `seed` field does not occur in the
construction. -/
def TerrainGenerator.permutationTable (rand : Nat → ℚ) : List Nat :=
  let base := shuffleLoop rand 255 (List.range 256)
  base ++ base

/-! Claim theorems. -/

/-- Concrete ChunkTS state for claim C2: a fresh chunk with STONE
legitimately written at in-range coordinate (0,1,0) — flat index 16. -/
def demoC2 : ChunkTS :=
  ChunkTS.empty.setVoxel 0 1 0 VoxelType.STONE

/-- C2 counterexample: in the Chunk.ts variant (cited by the claim),
`getVoxel` has no bounds check, so the out-of-range coordinate (16,0,0)
— whose flat index 16 aliases the in-range voxel (0,1,0) — returns that
voxel's STONE value, not Air; and a negative coordinate returns
`undefined` (none), also not Air. This refutes the claim as stated for
the cited `src/engine/voxel/Chunk.ts` accessor. -/
theorem C2_counterexample :
    ¬ (demoC2.getVoxel 16 0 0 = some VoxelType.AIR) ∧
    demoC2.getVoxel 16 0 0 = some VoxelType.STONE ∧
    demoC2.getVoxel (-1) 0 0 = none := by
  decide

/-- C2 (amended): in the bounds-checked chunk variant of part_008,
`getVoxel` returns AIR for every coordinate with a component < 0 or
≥ 16, for every chunk state. -/
theorem C2_theorem (c : Chunk) (x y z : Int)
    (h : x < 0 ∨ 16 ≤ x ∨ y < 0 ∨ 16 ≤ y ∨ z < 0 ∨ 16 ≤ z) :
    c.getVoxel x y z = VoxelType.AIR :=
  Chunk.getVoxel_out_of_range c x y z h

/-- Witness for C2: the amended theorem applied at coordinate
(-1, 0, 0) of a fresh chunk. -/
theorem C2_witness :
    ((-1 : Int) < 0 ∨ 16 ≤ (-1 : Int) ∨ (0 : Int) < 0 ∨ 16 ≤ (0 : Int) ∨
      (0 : Int) < 0 ∨ 16 ≤ (0 : Int)) ∧
    (Chunk.new 0 0 0).getVoxel (-1) 0 0 = VoxelType.AIR :=
  ⟨by decide, C2_theorem (Chunk.new 0 0 0) (-1) 0 0 (by decide)⟩

/-- Concrete ChunkTS state for claim C8: an all-AIR chunk whose mesh
has been built, so its dirty flag is clear (Chunk.ts line 182 sets
`isDirty = false` at the end of `updateMesh`). -/
def demoC8 : ChunkTS :=
  { voxels := fun _ => VoxelType.AIR, dirty := false }

/-- C8 counterexample: in the Chunk.ts variant (cited by the claim),
`setVoxel` has no bounds check, so writing STONE at the out-of-range
coordinate (16,0,0) lands on flat index 16 and overwrites the in-range
voxel (0,1,0); the dirty flag is also set. Both effects refute the
claimed no-op. -/
theorem C8_counterexample :
    (demoC8.setVoxel 16 0 0 VoxelType.STONE).getVoxel 0 1 0 = some VoxelType.STONE ∧
    demoC8.getVoxel 0 1 0 = some VoxelType.AIR ∧
    (demoC8.setVoxel 16 0 0 VoxelType.STONE).dirty = true ∧
    demoC8.dirty = false := by
  decide

/-- C8 (amended): in the bounds-checked chunk variant of part_008, an
out-of-range `setVoxel` is a complete no-op — the chunk, including
every stored voxel and the dirty flag, is returned unchanged. -/
theorem C8_theorem (c : Chunk) (x y z : Int) (t : VoxelType)
    (h : x < 0 ∨ 16 ≤ x ∨ y < 0 ∨ 16 ≤ y ∨ z < 0 ∨ 16 ≤ z) :
    c.setVoxel x y z t = c :=
  Chunk.setVoxel_out_of_range c x y z t h

/-- Witness for C8: the amended theorem applied at coordinate
(16, 0, 0), writing STONE into a fresh chunk. -/
theorem C8_witness :
    ((16 : Int) < 0 ∨ 16 ≤ (16 : Int) ∨ (0 : Int) < 0 ∨ 16 ≤ (0 : Int) ∨
      (0 : Int) < 0 ∨ 16 ≤ (0 : Int)) ∧
    (Chunk.new 0 0 0).setVoxel 16 0 0 VoxelType.STONE = Chunk.new 0 0 0 :=
  ⟨by decide, C8_theorem (Chunk.new 0 0 0) 16 0 0 VoxelType.STONE (by decide)⟩

/-- C5 counterexample: part_008's `setVoxel` compares nothing and sets
the dirty flag unconditionally (line 159), so writing AIR over a voxel
that is already AIR — on a chunk whose dirty flag had been cleared by
`updateMesh` — leaves the chunk dirty, contradicting the claim that a
value-preserving write must not mark the chunk dirty. -/
theorem C5_counterexample :
    (Chunk.new 0 0 0).updateMesh.getVoxel 0 0 0 = VoxelType.AIR ∧
    (Chunk.new 0 0 0).updateMesh.dirty = false ∧
    ¬ (((Chunk.new 0 0 0).updateMesh.setVoxel 0 0 0 VoxelType.AIR).dirty = false) := by
  refine ⟨?_, ?_, ?_⟩ <;> decide

/-- C5 (amended): an in-range `setVoxel` with the voxel's current value
still sets the dirty flag (part_008 lines 158-159 store and dirty
unconditionally; the method returns void, reporting nothing), and the
next `update()` pass therefore does rebuild the chunk's mesh:
`updateMesh` recomputes the mesh and clears the flag. -/
theorem C5_theorem (c : Chunk) (x y z : Int) (t : VoxelType) (k : Int × Int × Int)
    (hx : 0 ≤ x ∧ x < 16) (hy : 0 ≤ y ∧ y < 16) (hz : 0 ≤ z ∧ z < 16)
    (hsame : c.getVoxel x y z = t) :
    (c.setVoxel x y z t).dirty = true ∧
    ((c.setVoxel x y z t).updateMesh).dirty = false ∧
    ((c.setVoxel x y z t).updateMesh).mesh =
      some (ChunkMesher.generateMesh (c.setVoxel x y z t)) ∧
    WorldManager.update ⟨[(k, c.setVoxel x y z t)]⟩ =
      ⟨[(k, (c.setVoxel x y z t).updateMesh)]⟩ := by
  have hin : ¬ (x < 0 ∨ 16 ≤ x ∨ y < 0 ∨ 16 ≤ y ∨ z < 0 ∨ 16 ≤ z) := by omega
  have hdirty : (c.setVoxel x y z t).dirty = true := by
    unfold Chunk.setVoxel
    rw [if_neg hin]
  refine ⟨hdirty, ?_, ?_, ?_⟩
  · unfold Chunk.updateMesh
    rw [hdirty]
    simp
  · unfold Chunk.updateMesh
    rw [hdirty]
    simp
  · unfold WorldManager.update
    simp [Chunk.isDirty, hdirty]

/-- Witness for C5: a fresh meshed chunk, rewriting AIR at (0,0,0). -/
theorem C5_witness :
    ((0 : Int) ≤ 0 ∧ (0 : Int) < 16) ∧
    (Chunk.new 0 0 0).updateMesh.getVoxel 0 0 0 = VoxelType.AIR ∧
    ((Chunk.new 0 0 0).updateMesh.setVoxel 0 0 0 VoxelType.AIR).dirty = true :=
  ⟨by decide, by decide,
    (C5_theorem (Chunk.new 0 0 0).updateMesh 0 0 0 VoxelType.AIR (0, 0, 0)
      (by decide) (by decide) (by decide) (by decide)).1⟩

/-- C6 counterexample: part_008's `setVoxel` is declared `void` (line
154), so the call expression carries no Boolean report — it cannot
"report the change as true" as the claim states; here the stored voxel
(AIR) genuinely differs from the written STONE, and the call's value is
still not `true`. -/
theorem C6_counterexample :
    (Chunk.new 0 0 0).getVoxel 0 0 0 ≠ VoxelType.STONE ∧
    Chunk.setVoxelReturnValue (Chunk.new 0 0 0) 0 0 0 VoxelType.STONE ≠ some true := by
  decide

/-- C6 (amended): for an in-range write of a value different from the
stored one, `getVoxel` afterward returns the written value and the
chunk is dirty; a subsequent `updateMesh` clears the dirty flag. (The
source `setVoxel` returns void, so no change report is part of the
behavior.) -/
theorem C6_theorem (c : Chunk) (x y z : Int) (t : VoxelType)
    (hx : 0 ≤ x ∧ x < 16) (hy : 0 ≤ y ∧ y < 16) (hz : 0 ≤ z ∧ z < 16)
    (hdiff : c.getVoxel x y z ≠ t) :
    (c.setVoxel x y z t).getVoxel x y z = t ∧
    (c.setVoxel x y z t).dirty = true ∧
    ((c.setVoxel x y z t).updateMesh).dirty = false := by
  have hin : ¬ (x < 0 ∨ 16 ≤ x ∨ y < 0 ∨ 16 ≤ y ∨ z < 0 ∨ 16 ≤ z) := by omega
  have hdirty : (c.setVoxel x y z t).dirty = true := by
    unfold Chunk.setVoxel
    rw [if_neg hin]
  refine ⟨?_, hdirty, ?_⟩
  · unfold Chunk.setVoxel Chunk.getVoxel
    rw [if_neg hin]
    simp [if_neg hin]
  · unfold Chunk.updateMesh
    rw [hdirty]
    simp

/-- Witness for C6: writing STONE over AIR at (0,0,0) of a fresh
chunk. -/
theorem C6_witness :
    ((0 : Int) ≤ 0 ∧ (0 : Int) < 16) ∧
    (Chunk.new 0 0 0).getVoxel 0 0 0 ≠ VoxelType.STONE ∧
    ((Chunk.new 0 0 0).setVoxel 0 0 0 VoxelType.STONE).getVoxel 0 0 0 = VoxelType.STONE :=
  ⟨by decide, by decide,
    (C6_theorem (Chunk.new 0 0 0) 0 0 0 VoxelType.STONE
      (by decide) (by decide) (by decide) (by decide)).1⟩

/-- C9: whenever the neighbor coordinate of a face falls outside
[0,16)³, `shouldRenderFace` returns true — boundary faces are always
emitted. The function takes only the one chunk (no world or neighbor
chunk parameter), so the adjacent chunk's voxels are never consulted;
the same method body appears in both mesher classes of ChunkMesher.ts
(lines 179-208 and 343-372). -/
theorem C9_theorem (c : Chunk) (x y z : Int) (f : Face)
    (h : (neighborCoord x y z f).1 < 0 ∨ 16 ≤ (neighborCoord x y z f).1 ∨
      (neighborCoord x y z f).2.1 < 0 ∨ 16 ≤ (neighborCoord x y z f).2.1 ∨
      (neighborCoord x y z f).2.2 < 0 ∨ 16 ≤ (neighborCoord x y z f).2.2) :
    ChunkMesher.shouldRenderFace c x y z f = true := by
  unfold ChunkMesher.shouldRenderFace
  rw [if_pos h]

/-- Witness for C9: the left face of the corner voxel (0,0,0), whose
neighbor (-1,0,0) is outside the chunk. -/
theorem C9_witness :
    ((neighborCoord 0 0 0 Face.left).1 < 0 ∨ 16 ≤ (neighborCoord 0 0 0 Face.left).1 ∨
      (neighborCoord 0 0 0 Face.left).2.1 < 0 ∨ 16 ≤ (neighborCoord 0 0 0 Face.left).2.1 ∨
      (neighborCoord 0 0 0 Face.left).2.2 < 0 ∨ 16 ≤ (neighborCoord 0 0 0 Face.left).2.2) ∧
    ChunkMesher.shouldRenderFace (Chunk.new 0 0 0) 0 0 0 Face.left = true :=
  ⟨by decide, C9_theorem (Chunk.new 0 0 0) 0 0 0 Face.left (by decide)⟩

/-- Concrete ChunkTS state for claim C3: STONE at (1,1,1) and at all
six of its axis-aligned neighbors (STONE is opaque: its material is not
transparent). -/
def demoC3 : ChunkTS :=
  ((((((ChunkTS.empty.setVoxel 1 1 1 VoxelType.STONE).setVoxel 0 1 1
      VoxelType.STONE).setVoxel 2 1 1 VoxelType.STONE).setVoxel 1 0 1
      VoxelType.STONE).setVoxel 1 2 1 VoxelType.STONE).setVoxel 1 1 0
      VoxelType.STONE).setVoxel 1 1 2 VoxelType.STONE

/-- The same configuration with the fully-enclosed center voxel left
AIR. -/
def demoC3noCenter : ChunkTS :=
  (((((ChunkTS.empty.setVoxel 0 1 1 VoxelType.STONE).setVoxel 2 1 1
      VoxelType.STONE).setVoxel 1 0 1 VoxelType.STONE).setVoxel 1 2 1
      VoxelType.STONE).setVoxel 1 1 0 VoxelType.STONE).setVoxel 1 1 2
      VoxelType.STONE

set_option maxRecDepth 200000 in
/-- C3 counterexample: the built-in mesher of Chunk.ts (`updateMesh`,
lines 88-164, cited by the claim) performs no neighbor visibility test:
the voxel at (1,1,1) is non-Air with all six neighbors non-Air and
opaque, yet the built geometry contains its full 24-corner cube — 504
vertex coordinates for the seven stones instead of the 432 that the six
visible stones alone produce — so the enclosed voxel contributes faces,
refuting the claim for that mesher. -/
theorem C3_counterexample :
    demoC3.getVoxel 1 1 1 = some VoxelType.STONE ∧
    demoC3.getVoxel 0 1 1 = some VoxelType.STONE ∧
    demoC3.getVoxel 2 1 1 = some VoxelType.STONE ∧
    demoC3.getVoxel 1 0 1 = some VoxelType.STONE ∧
    demoC3.getVoxel 1 2 1 = some VoxelType.STONE ∧
    demoC3.getVoxel 1 1 0 = some VoxelType.STONE ∧
    demoC3.getVoxel 1 1 2 = some VoxelType.STONE ∧
    VOXEL_MATERIALS.transparent VoxelType.STONE = false ∧
    (ChunkTS.updateMeshData demoC3).vertices.length = 504 ∧
    (ChunkTS.updateMeshData demoC3noCenter).vertices.length = 432 := by
  refine ⟨by decide, by decide, by decide, by decide, by decide, by decide, by decide,
    by decide, ?_, ?_⟩ <;> decide

/-- C3 (amended): in the culling mesher (`ChunkMesher.addVoxelToMesh`
with `shouldRenderFace`, cited by the claim), a voxel all of whose six
neighbors — as read through the bounds-checked `getVoxel` — are non-Air
and non-transparent contributes nothing: the mesh buffers are returned
unchanged. -/
theorem C3_theorem (c : Chunk) (x y z : Int) (vt : VoxelType) (st : MeshData)
    (h : ∀ f : Face,
      c.getVoxel (neighborCoord x y z f).1 (neighborCoord x y z f).2.1
          (neighborCoord x y z f).2.2 ≠ VoxelType.AIR ∧
      VOXEL_MATERIALS.transparent
          (c.getVoxel (neighborCoord x y z f).1 (neighborCoord x y z f).2.1
            (neighborCoord x y z f).2.2) = false) :
    ChunkMesher.addVoxelToMesh c x y z vt st = st := by
  have hf : ∀ f : Face, ChunkMesher.shouldRenderFace c x y z f = false := by
    intro f
    obtain ⟨h1, h2⟩ := h f
    unfold ChunkMesher.shouldRenderFace
    by_cases hb : (neighborCoord x y z f).1 < 0 ∨ 16 ≤ (neighborCoord x y z f).1 ∨
        (neighborCoord x y z f).2.1 < 0 ∨ 16 ≤ (neighborCoord x y z f).2.1 ∨
        (neighborCoord x y z f).2.2 < 0 ∨ 16 ≤ (neighborCoord x y z f).2.2
    · exact absurd (Chunk.getVoxel_out_of_range c _ _ _ hb) h1
    · rw [if_neg hb]
      simp only [Bool.or_eq_false_iff, beq_eq_false_iff_ne, ne_eq]
      exact ⟨h1, h2⟩
  unfold ChunkMesher.addVoxelToMesh facesOrder
  simp [List.foldl, hf]

/-- Concrete part_008 chunk for the C3 witness: STONE at (1,1,1) and
all six neighbors. -/
def demoC3cull : Chunk :=
  (((((((Chunk.new 0 0 0).setVoxel 1 1 1 VoxelType.STONE).setVoxel 0 1 1
      VoxelType.STONE).setVoxel 2 1 1 VoxelType.STONE).setVoxel 1 0 1
      VoxelType.STONE).setVoxel 1 2 1 VoxelType.STONE).setVoxel 1 1 0
      VoxelType.STONE).setVoxel 1 1 2 VoxelType.STONE

/-- Witness for C3: the enclosed stone at (1,1,1) of `demoC3cull`
contributes nothing to empty mesh buffers. -/
theorem C3_witness :
    (∀ f : Face,
      demoC3cull.getVoxel (neighborCoord 1 1 1 f).1 (neighborCoord 1 1 1 f).2.1
          (neighborCoord 1 1 1 f).2.2 ≠ VoxelType.AIR ∧
      VOXEL_MATERIALS.transparent
          (demoC3cull.getVoxel (neighborCoord 1 1 1 f).1 (neighborCoord 1 1 1 f).2.1
            (neighborCoord 1 1 1 f).2.2) = false) ∧
    ChunkMesher.addVoxelToMesh demoC3cull 1 1 1 VoxelType.STONE
      { vertices := [], normals := [], colors := [], indices := [] } =
      { vertices := [], normals := [], colors := [], indices := [] } :=
  ⟨by decide, C3_theorem demoC3cull 1 1 1 VoxelType.STONE _ (by decide)⟩

/-- The scanning loop returns y0 + 1 when the voxel at scanning height
y0 is not AIR and every scanned voxel strictly above it is AIR. -/
theorem heightLoop_found (wm : WorldManager) (cx cz lx lz : Int) (y0 n : Nat)
    (h : y0 < n)
    (hne : wm.scanVoxel cx cz lx lz y0 ≠ VoxelType.AIR)
    (hair : ∀ y', y' < n → y0 < y' → wm.scanVoxel cx cz lx lz y' = VoxelType.AIR) :
    WorldManager.heightLoop wm cx cz lx lz n = (y0 : Int) + 1 := by
  induction n with
  | zero => omega
  | succ m ih =>
      unfold WorldManager.heightLoop
      by_cases hm : y0 = m
      · subst hm
        rw [if_pos hne]
      · have hlt : y0 < m := by omega
        have hAIRm : wm.scanVoxel cx cz lx lz m = VoxelType.AIR :=
          hair m (by omega) (by omega)
        rw [if_neg (not_not_intro hAIRm)]
        exact ih hlt (fun y' hy' hy0 => hair y' (by omega) hy0)

/-- The scanning loop returns 0 when every scanned voxel is AIR. -/
theorem heightLoop_all_air (wm : WorldManager) (cx cz lx lz : Int) (n : Nat)
    (hair : ∀ y', y' < n → wm.scanVoxel cx cz lx lz y' = VoxelType.AIR) :
    WorldManager.heightLoop wm cx cz lx lz n = 0 := by
  induction n with
  | zero => rfl
  | succ m ih =>
      unfold WorldManager.heightLoop
      rw [if_neg (not_not_intro (hair m (by omega)))]
      exact ih (fun y' hy' => hair y' (by omega))

/-- Concrete world for claim C4: one chunk at chunk coordinate (0,0,0)
holding a single STONE at local (0,5,0) — so 5 is the y-coordinate of
the topmost non-Air voxel of the loaded column at (0,0) (no other chunk
is loaded). -/
def demoC4 : WorldManager :=
  ⟨[((0, 0, 0), (Chunk.new 0 0 0).setVoxel 0 5 0 VoxelType.STONE)]⟩

/-- C4 counterexample: the topmost non-Air voxel of the loaded column
at (0,0) sits at y = 5 (STONE at (0,5,0), AIR at every loaded height
above it), yet `getHeightAt(0,0)` returns 6 = 5 + 1 (part_007 line 229
returns `y + 1`), not 5 as the claim states. -/
theorem C4_counterexample :
    demoC4.getVoxel 0 5 0 = VoxelType.STONE ∧
    demoC4.getVoxel 0 6 0 = VoxelType.AIR ∧
    demoC4.getVoxel 0 7 0 = VoxelType.AIR ∧
    demoC4.getVoxel 0 8 0 = VoxelType.AIR ∧
    demoC4.getVoxel 0 9 0 = VoxelType.AIR ∧
    demoC4.getVoxel 0 10 0 = VoxelType.AIR ∧
    demoC4.getVoxel 0 11 0 = VoxelType.AIR ∧
    demoC4.getVoxel 0 12 0 = VoxelType.AIR ∧
    demoC4.getVoxel 0 13 0 = VoxelType.AIR ∧
    demoC4.getVoxel 0 14 0 = VoxelType.AIR ∧
    demoC4.getVoxel 0 15 0 = VoxelType.AIR ∧
    demoC4.getHeightAt 0 0 = 6 ∧
    ¬ (demoC4.getHeightAt 0 0 = 5) := by
  decide

/-- C4 (amended): `getHeightAt(x,z)` returns y0 + 1 — one above the
y-coordinate of the topmost non-Air voxel found by the downward scan
over the loaded chunks (the scan covers heights 0 ≤ y < 64) — and 0
when every scanned voxel of the column is AIR. -/
theorem C4_theorem (wm : WorldManager) (x z : Int) :
    (∀ y0 : Nat, y0 < 64 →
      wm.scanVoxel (Int.fdiv x 16) (Int.fdiv z 16) (localColumn x) (localColumn z) y0 ≠
        VoxelType.AIR →
      (∀ y', y' < 64 → y0 < y' →
        wm.scanVoxel (Int.fdiv x 16) (Int.fdiv z 16) (localColumn x) (localColumn z) y' =
          VoxelType.AIR) →
      wm.getHeightAt x z = (y0 : Int) + 1) ∧
    ((∀ y', y' < 64 →
      wm.scanVoxel (Int.fdiv x 16) (Int.fdiv z 16) (localColumn x) (localColumn z) y' =
        VoxelType.AIR) →
      wm.getHeightAt x z = 0) := by
  constructor
  · intro y0 h0 hne hair
    exact heightLoop_found wm _ _ _ _ y0 64 h0 hne hair
  · intro hair
    exact heightLoop_all_air wm _ _ _ _ 64 hair

/-- Witness for C4: the amended theorem applied to `demoC4` at column
(0,0) with topmost non-Air scanning height 5. -/
theorem C4_witness :
    demoC4.scanVoxel (Int.fdiv 0 16) (Int.fdiv 0 16) (localColumn 0) (localColumn 0) 5 ≠
      VoxelType.AIR ∧
    (∀ y' : Nat, y' < 64 → 5 < y' →
      demoC4.scanVoxel (Int.fdiv 0 16) (Int.fdiv 0 16) (localColumn 0) (localColumn 0) y' =
        VoxelType.AIR) ∧
    demoC4.getHeightAt 0 0 = (5 : Nat) + 1 :=
  ⟨by decide, by decide,
    (C4_theorem demoC4 0 0).1 5 (by decide) (by decide) (by decide)⟩

/-- C7: for every integer world coordinate (including negatives),
`getVoxel`/`setVoxel` decompose w into chunkCoord = floor(w/16) and
local = w − chunkCoord·16 with local ∈ [0,16) and
chunkCoord·16 + local = w, and delegate to the chunk at that
coordinate; `getVoxel` returns AIR when that chunk has not been
created, and `setVoxel` leaves the world unchanged. -/
theorem C7_theorem (wm : WorldManager) (wx wy wz : Int) (t : VoxelType) :
    (0 ≤ wx - Int.fdiv wx 16 * 16 ∧ wx - Int.fdiv wx 16 * 16 < 16 ∧
      Int.fdiv wx 16 * 16 + (wx - Int.fdiv wx 16 * 16) = wx) ∧
    (0 ≤ wy - Int.fdiv wy 16 * 16 ∧ wy - Int.fdiv wy 16 * 16 < 16 ∧
      Int.fdiv wy 16 * 16 + (wy - Int.fdiv wy 16 * 16) = wy) ∧
    (0 ≤ wz - Int.fdiv wz 16 * 16 ∧ wz - Int.fdiv wz 16 * 16 < 16 ∧
      Int.fdiv wz 16 * 16 + (wz - Int.fdiv wz 16 * 16) = wz) ∧
    (wm.getVoxel wx wy wz =
      match wm.getChunk (Int.fdiv wx 16) (Int.fdiv wy 16) (Int.fdiv wz 16) with
      | some chunk =>
          chunk.getVoxel (wx - Int.fdiv wx 16 * 16) (wy - Int.fdiv wy 16 * 16)
            (wz - Int.fdiv wz 16 * 16)
      | none => VoxelType.AIR) ∧
    (wm.setVoxel wx wy wz t =
      match wm.getChunk (Int.fdiv wx 16) (Int.fdiv wy 16) (Int.fdiv wz 16) with
      | some chunk =>
          { chunks :=
              wm.chunks.map
                (fun kv =>
                  if kv.1 = (Int.fdiv wx 16, Int.fdiv wy 16, Int.fdiv wz 16) then
                    (kv.1,
                      (chunk.setVoxel (wx - Int.fdiv wx 16 * 16) (wy - Int.fdiv wy 16 * 16)
                          (wz - Int.fdiv wz 16 * 16) t).updateMesh)
                  else kv) }
      | none => wm) := by
  have hdecomp : ∀ w : Int, 0 ≤ w - Int.fdiv w 16 * 16 ∧ w - Int.fdiv w 16 * 16 < 16 ∧
      Int.fdiv w 16 * 16 + (w - Int.fdiv w 16 * 16) = w := by
    intro w
    rw [Int.fdiv_eq_ediv _ (by norm_num)]
    omega
  exact ⟨hdecomp wx, hdecomp wy, hdecomp wz, rfl, rfl⟩

/-- A write one above local y is dropped by the bounds guard whenever
it would leave the chunk through the top: the two y-loop bodies agree
everywhere. -/
theorem terrainYStep_eq_clipped (n : NoiseFns) (posY x z : Int)
    (nx nz biome moisture : ℚ) (height : Int) (c : Chunk) (y : Int) :
    terrainYStep n posY x z nx nz biome moisture height c y =
      terrainYStepClipped n posY x z nx nz biome moisture height c y := by
  unfold terrainYStep terrainYStepClipped
  by_cases h16 : y + 1 < 16
  · simp only [if_pos h16]
  · have hoob : ∀ cs : Chunk, cs.setVoxel x (y + 1) z VoxelType.FREDALITE_CRYSTAL = cs :=
      fun cs =>
        Chunk.setVoxel_out_of_range cs x (y + 1) z VoxelType.FREDALITE_CRYSTAL
          (Or.inr (Or.inr (Or.inr (Or.inl (by omega)))))
    simp only [if_neg h16, hoob]

/-- The generator and its crystal-clipped comparison version produce
the same chunk, for every noise instance and every chunk. -/
theorem generateChunkTerrain_eq_clipped (n : NoiseFns) (c : Chunk) :
    WorldManager.generateChunkTerrain n c = WorldManager.generateChunkTerrainClipped n c := by
  have h : @terrainYStep = @terrainYStepClipped := by
    funext n' posY x z nx nz biome moisture height c' y
    exact terrainYStep_eq_clipped n' posY x z nx nz biome moisture height c' y
  unfold WorldManager.generateChunkTerrain WorldManager.generateChunkTerrainClipped
  rw [h]

/-- C10: when a column's surface lands in the chunk's top local layer
(height = position.y·16 + 15) and the crystal conditions hold
(moisture > 0.7 and the high-frequency channel exceeds
1 − CRYSTAL_DENSITY), the Fredalite-crystal write targets local y = 16:
it is rejected by the chunk's bounds guard and silently dropped (a
no-op for every chunk state), generation is total and produces exactly
what it would produce with the out-of-top crystal write removed, and
the cell above the surface voxel reads AIR. -/
theorem C10_theorem (n : NoiseFns) (c : Chunk) (x z : Int)
    (hx : 0 ≤ x ∧ x < 16) (hz : 0 ≤ z ∧ z < 16)
    (hsurf : heightAt n (c.position.1 * 16 + x) (c.position.2.2 * 16 + z) =
      c.position.2.1 * 16 + 15)
    (hmoist : Rat.divInt 7 10 <
      moistureNoiseAt n (c.position.1 * 16 + x) (c.position.2.2 * 16 + z))
    (hcry : qSub 1 CRYSTAL_DENSITY <
      crystalNoiseAt n (c.position.1 * 16 + x) (c.position.2.2 * 16 + z)) :
    (∀ c' : Chunk, c'.setVoxel x 16 z VoxelType.FREDALITE_CRYSTAL = c') ∧
    (WorldManager.generateChunkTerrain n c).getVoxel x 16 z = VoxelType.AIR ∧
    (∀ a b d : Int,
      (WorldManager.generateChunkTerrain n c).getVoxel a b d =
        (WorldManager.generateChunkTerrainClipped n c).getVoxel a b d) := by
  refine ⟨?_, ?_, ?_⟩
  · intro c'
    exact Chunk.setVoxel_out_of_range c' x 16 z VoxelType.FREDALITE_CRYSTAL
      (Or.inr (Or.inr (Or.inr (Or.inl (by omega)))))
  · exact Chunk.getVoxel_out_of_range _ x 16 z
      (Or.inr (Or.inr (Or.inr (Or.inl (by omega)))))
  · intro a b d
    rw [generateChunkTerrain_eq_clipped]

/-- Noise instance for the C10 witness, with rational channels chosen
so that column (3, 0) of the chunk at (0,0,0) has surface height 15
(the top local layer), moisture 49/50 > 0.7, and crystal channel
24/25 > 19/20. -/
def demoNoise : NoiseFns :=
  ⟨fun a _b =>
      if a = Rat.divInt 1 50 then Rat.divInt (-9) 20
      else if a = Rat.divInt 2 25 then Rat.divInt 24 25
      else if a = Rat.divInt 3 250 then Rat.divInt 24 25
      else 0,
    fun _ _ _ => 0⟩

/-- Witness for C10: the theorem applied to `demoNoise`, the chunk at
(0,0,0), and column (3,0). -/
theorem C10_witness :
    heightAt demoNoise ((Chunk.new 0 0 0).position.1 * 16 + 3)
        ((Chunk.new 0 0 0).position.2.2 * 16 + 0) =
      (Chunk.new 0 0 0).position.2.1 * 16 + 15 ∧
    Rat.divInt 7 10 <
      moistureNoiseAt demoNoise ((Chunk.new 0 0 0).position.1 * 16 + 3)
        ((Chunk.new 0 0 0).position.2.2 * 16 + 0) ∧
    qSub 1 CRYSTAL_DENSITY <
      crystalNoiseAt demoNoise ((Chunk.new 0 0 0).position.1 * 16 + 3)
        ((Chunk.new 0 0 0).position.2.2 * 16 + 0) ∧
    (Chunk.new 0 0 0).setVoxel 3 16 0 VoxelType.FREDALITE_CRYSTAL = Chunk.new 0 0 0 :=
  ⟨by decide, by decide, by decide,
    (C10_theorem demoNoise (Chunk.new 0 0 0) 3 0 (by decide) (by decide)
        (by decide) (by decide) (by decide)).1 (Chunk.new 0 0 0)⟩

/-- One possible `Math.random()` stream: every draw 0, so every
Fisher-Yates step swaps with index 0. -/
def randA : Nat → ℚ := fun _ => 0

/-- Another possible `Math.random()` stream: every draw 255/256, so
every Fisher-Yates step swaps an index with itself and the table stays
the identity. -/
def randB : Nat → ℚ := fun _ => Rat.divInt 255 256

/-- One possible ambient state of the unseeded `new SimplexNoise()`
(part_007 line 26): constant 0 noise, terrain height 20. -/
def noiseA : NoiseFns := ⟨fun _ _ => 0, fun _ _ _ => 0⟩

/-- Another possible ambient state of the unseeded noise: constant −1,
terrain height 10. -/
def noiseB : NoiseFns := ⟨fun _ _ => Rat.divInt (-1) 1, fun _ _ _ => 0⟩

set_option maxRecDepth 200000 in
/-- C1: determinism from the seed fails in the code. The permutation
table of `TerrainGenerator.createNoiseTexture` is shuffled by unseeded
`Math.random()` draws — the stored `this.seed` is never read by the
construction — so two generator constructions under different ambient
entropy build different tables; likewise part_007's WorldManager feeds
its terrain from an unseeded `new SimplexNoise()`, and two
constructions under different ambient noise yield different voxel
types at the same world coordinate (STONE versus AIR at (15,15,15) of
the chunk at (0,0,0)). Repeated reads on one construction do agree
(the model is a pure function of the construction-time state), but
the claim's cross-construction equality for a fixed seed is false. -/
theorem C1_theorem :
    TerrainGenerator.permutationTable randA ≠ TerrainGenerator.permutationTable randB ∧
    (WorldManager.generateChunkTerrain noiseA (Chunk.new 0 0 0)).getVoxel 15 15 15 =
      VoxelType.STONE ∧
    (WorldManager.generateChunkTerrain noiseB (Chunk.new 0 0 0)).getVoxel 15 15 15 =
      VoxelType.AIR := by
  refine ⟨?_, by decide, by decide⟩
  intro h
  have hd : (TerrainGenerator.permutationTable randA).getD 255 999 =
      (TerrainGenerator.permutationTable randB).getD 255 999 := by rw [h]
  exact absurd hd (by decide)

end Lowdrag
